import Mathlib

/-!
Shallow embedding of the paasta `spark-run` launch pipeline
(`paasta_tools/cli/cmds/spark_run.py`) and of the secret-reference helpers
(`paasta_tools/secret_tools.py`).

External effects (leader discovery, the local filesystem, the reserved UI
port, the invoking user, AWS credentials) are passed in as explicit oracle
parameters; machine-level side effects (printing, `sys.exit`, `os.execlp`)
are reified as data (`ConfAbort`, `ExecOutcome`).  Python string operations
are modelled by structurally recursive Lean functions over `String.data`
so that every definition evaluates inside the kernel.
-/

/-- Python `str.join`: `joinSep sep [a, b, c] = a ++ sep ++ b ++ sep ++ c`. -/
def joinSep (sep : String) : List String → String
  | [] => ""
  | [x] => x
  | x :: y :: rest => x ++ sep ++ joinSep sep (y :: rest)

/-- Python `str.split` with a one-character separator (accumulator form). -/
def splitCharAux (sep : Char) : List Char → List Char → List String
  | [], acc => [⟨acc.reverse⟩]
  | c :: rest, acc =>
    if c = sep then ⟨acc.reverse⟩ :: splitCharAux sep rest []
    else splitCharAux sep rest (c :: acc)

/-- Python `s.split(sep)` for a one-character `sep` (as used with `':'` and `'('`). -/
def pySplitChar (sep : Char) (s : String) : List String :=
  splitCharAux sep s.data []

/-- Python truthiness of an `int`-typed optional argparse value: `None` and `0` are falsy. -/
def truthyInt : Option Int → Bool
  | none => false
  | some n => n != 0

/-- Python truthiness of a `str`-typed optional argparse value: `None` and `""` are falsy. -/
def truthyStr : Option String → Bool
  | none => false
  | some s => s != ""

/-- Python `os.path.isabs` on POSIX: the path starts with `'/'`. -/
def pyIsAbs (s : String) : Bool :=
  match s.data with
  | c :: _ => c == '/'
  | [] => false

/-- Python `str.lower` (ASCII, which covers the volume modes `RO`/`RW`). -/
def pyLower (s : String) : String := ⟨s.data.map Char.toLower⟩

/-- Python `s.startswith(pre)`. -/
def pyStartsWith (s pre : String) : Bool := pre.data.isPrefixOf s.data

/-- Python slicing `s[n:]`. -/
def pyDrop (s : String) (n : Nat) : String := ⟨s.data.drop n⟩

/-- `Except` value that is a success, `Bool`-valued for kernel evaluation. -/
def exceptOk {ε α : Type} : Except ε α → Bool
  | .ok _ => true
  | .error _ => false

/-- `Except` value that is an error (an uncaught exception in the model). -/
def exceptThrew {ε α : Type} : Except ε α → Bool
  | .ok _ => false
  | .error _ => true

/- ------------------------------------------------------------------ -/
/- spark_run.py : data model                                           -/
/- ------------------------------------------------------------------ -/

/-- Constant `DEFAULT_SPARK_MESOS_SECRET_FILE` from `spark_run.py`. -/
def DEFAULT_SPARK_MESOS_SECRET_FILE : String := "/nail/etc/paasta_spark_secret"

/-- The argparse namespace fields consumed by the launch pipeline
(`add_subparser` in `spark_run.py`).  Options without a default are
`Option`-typed (`none` = not supplied). -/
structure SparkArgs where
  build : Bool
  image : Option String
  cluster : String
  jars : Option String
  pool : String
  work_dir : String
  cmd : Option String
  dry_run : Bool
  mesos_principal : String
  mesos_secret : Option String
  executor_memory : Int
  executor_cores : Int
  max_cores : Int
  driver_max_result_size : Option Int
  driver_memory : Option Int
  driver_cores : Option Int
deriving DecidableEq

/-- A `sys.exit` with a message printed to stderr beforehand. -/
structure ConfAbort where
  message : String
  exitCode : Nat
deriving DecidableEq

/-- A declarative volume record (`instance_config.get_volumes` item). -/
structure Volume where
  hostPath : String
  containerPath : String
  mode : String
deriving DecidableEq

/-- The `'%s:%s:%s' % (hostPath, containerPath, mode.lower())` binding string. -/
def formatVolume (v : Volume) : String :=
  v.hostPath ++ ":" ++ v.containerPath ++ ":" ++ pyLower v.mode

/-- The volume loop of `configure_and_run_docker_container` (lines 319-328):
first component = kept binding strings, second component = warnings printed
for bindings whose host path does not exist. -/
def processVolumes : List Volume → (String → Bool) → List String × List String
  | [], _ => ([], [])
  | v :: rest, pathExists =>
    let r := processVolumes rest pathExists
    if pathExists v.hostPath then (formatVolume v :: r.1, r.2)
    else
      (r.1,
       ("Warning: Path " ++ v.hostPath ++ " does not exist on this host. Skipping this binding.")
         :: r.2)

/-- Host path of a formatted binding string (the part before the first `':'`). -/
def bindingHostPath (b : String) : String := (pySplitChar ':' b).getD 0 ""

/-- The volume list after the client-specific appends of lines 342-345:
the filtered declarative bindings, then the work dir (`:rw`) and the two
read-only identity files, appended unconditionally. -/
def finalVolumes (args : SparkArgs) (cfgVolumes : List Volume) (pathExists : String → Bool) :
    List String :=
  (processVolumes cfgVolumes pathExists).1
    ++ [args.work_dir ++ ":rw", "/etc/passwd:/etc/passwd:ro", "/etc/group:/etc/group:ro"]

/-- `'paasta_spark_run_%s_%s' % (get_username(), spark_ui_port)`. -/
def containerName (username : String) (spark_ui_port : Nat) : String :=
  "paasta_spark_run_" ++ username ++ "_" ++ toString spark_ui_port

/- ------------------------------------------------------------------ -/
/- spark_run.py : get_spark_conf_str                                   -/
/- ------------------------------------------------------------------ -/

/-- Entries of `get_spark_conf_str` emitted before the mesos secret
(lines 231-259), in source order.  `mesos_leader`/`mesos_master_port`
stand for `find_mesos_leader(cluster_fqdn)` and `MESOS_MASTER_PORT`. -/
def confEntriesPre (args : SparkArgs) (container_name : String) (spark_ui_port : Nat)
    (docker_img mesos_leader : String) (mesos_master_port : Nat) : List String :=
  ["--conf spark.app.name=" ++ container_name]
  ++ ["--conf spark.ui.port=" ++ toString spark_ui_port]
  ++ ["--conf spark.master=mesos://" ++ mesos_leader ++ ":" ++ toString mesos_master_port]
  ++ ["--conf spark.cores.max=" ++ toString args.max_cores]
  ++ ["--conf spark.executor.memory=" ++ toString args.executor_memory ++ "g"]
  ++ ["--conf spark.executor.cores=" ++ toString args.executor_cores]
  ++ (if truthyInt args.driver_max_result_size then
        ["--conf spark.driver.maxResultSize=" ++ toString (args.driver_max_result_size.getD 0) ++ "g"]
      else [])
  ++ (if truthyInt args.driver_memory then
        ["--conf spark.driver.memory=" ++ toString (args.driver_memory.getD 0) ++ "g"]
      else [])
  ++ (if truthyInt args.driver_cores then
        ["--conf spark.driver.cores=" ++ toString (args.driver_cores.getD 0)]
      else [])
  ++ ["--conf spark.mesos.executor.docker.image=" ++ docker_img]
  ++ (if !args.build && !truthyStr args.image then
        ["--conf spark.mesos.uris=file:///root/.dockercfg"]
      else [])
  ++ (if truthyStr args.jars then ["--conf spark.jars=" ++ args.jars.getD ""] else [])
  ++ ["--conf spark.mesos.principal=" ++ args.mesos_principal]

/-- The mesos secret entry (lines 260-272).  `secret_file` is the outcome of
`open(DEFAULT_SPARK_MESOS_SECRET_FILE).read()`: `none` models the `IOError`
branch (which prints the attempted path and exits 1). -/
def secretConfEntry (args : SparkArgs) (secret_file : Option String) : Except ConfAbort String :=
  if !truthyStr args.mesos_secret then
    match secret_file with
    | some content => .ok ("--conf spark.mesos.secret=" ++ content)
    | none =>
      .error ⟨"Cannot load mesos secret from " ++ DEFAULT_SPARK_MESOS_SECRET_FILE, 1⟩
  else
    .ok ("--conf spark.mesos.secret=" ++ args.mesos_secret.getD "")

/-- Entries emitted after the mesos secret (lines 276-280), in source order. -/
def confEntriesPost (args : SparkArgs) (volumes : List String) : List String :=
  ["--conf spark.driver.extraJavaOptions=-Dderby.system.home=/tmp/derby"]
  ++ ["--conf spark.mesos.constraints=pool:" ++ args.pool]
  ++ ["--conf spark.mesos.executor.docker.volumes=" ++ joinSep "," volumes]

/-- The `spark_conf` list built by `get_spark_conf_str` (lines 230-280):
the sequential appends, with the one fallible step (the secret) factored
in source position. -/
def get_spark_conf_entries (args : SparkArgs) (container_name : String) (spark_ui_port : Nat)
    (docker_img mesos_leader : String) (mesos_master_port : Nat)
    (secret_file : Option String) (volumes : List String) : Except ConfAbort (List String) :=
  match secretConfEntry args secret_file with
  | .error e => .error e
  | .ok secretEntry =>
    .ok (confEntriesPre args container_name spark_ui_port docker_img mesos_leader mesos_master_port
          ++ [secretEntry]
          ++ confEntriesPost args volumes)

/-- `get_spark_conf_str` (line 282): `' '.join(spark_conf)`. -/
def get_spark_conf_str (args : SparkArgs) (container_name : String) (spark_ui_port : Nat)
    (docker_img mesos_leader : String) (mesos_master_port : Nat)
    (secret_file : Option String) (volumes : List String) : Except ConfAbort String :=
  Except.map (joinSep " ")
    (get_spark_conf_entries args container_name spark_ui_port docker_img mesos_leader
      mesos_master_port secret_file volumes)

/- ------------------------------------------------------------------ -/
/- spark_run.py : environment, docker command, executor                -/
/- ------------------------------------------------------------------ -/

/-- Python `dict.update`: existing keys keep their position with the new
value, new keys are appended in order. -/
def dictUpdate (base upd : List (String × String)) : List (String × String) :=
  base.map (fun kv => match upd.lookup kv.1 with | some v => (kv.1, v) | none => kv)
  ++ upd.filter (fun kv => (base.lookup kv.1).isNone)

/-- `get_spark_env` (lines 199-219); `access_key`/`secret_key` stand for the
botocore session credentials. -/
def get_spark_env (args : SparkArgs) (spark_conf : String) (access_key secret_key : String) :
    List (String × String) :=
  [("AWS_ACCESS_KEY_ID", access_key), ("AWS_SECRET_ACCESS_KEY", secret_key),
   ("SPARK_USER", "root"), ("SPARK_OPTS", spark_conf)]
  ++ (if args.cmd = some "jupyter" then
        [("JUPYTER_RUNTIME_DIR", (pySplitChar ':' args.work_dir).getD 1 "" ++ "/.jupyter"),
         ("JUPYTER_DATA_DIR", (pySplitChar ':' args.work_dir).getD 1 "" ++ "/.jupyter")]
      else [])

/-- The source's get_docker_run_cmd (lines 173-196). -/
def get_docker_run_argv (container_name : String) (volumes : List String)
    (env : List (String × String)) (docker_img docker_cmd : String)
    (euid egid : Nat) : List String :=
  ["paasta_docker_wrapper", "run", "--rm", "--net=host", "--interactive=true", "--tty=true",
   "--user=" ++ toString euid ++ ":" ++ toString egid,
   "--name=" ++ container_name]
  ++ env.flatMap (fun kv => ["--env", kv.1 ++ "=" ++ kv.2])
  ++ volumes.map (fun v => "--volume=" ++ v)
  ++ [docker_img, "sh", "-c", docker_cmd]

/-- Terminal behaviour of `run_docker_container`: dry run serializes the
argument vector and returns 0; live mode replaces the process image via
`os.execlp`; `failed` models a plain non-zero return from the caller. -/
inductive ExecOutcome where
  | dryRun (serialized : List String) (status : Nat)
  | exec (argv : List String)
  | failed (status : Nat)
deriving DecidableEq

/-- `run_docker_container` (lines 285-310). -/
def run_docker_container (container_name : String) (volumes : List String)
    (environment : List (String × String)) (docker_img docker_cmd : String)
    (euid egid : Nat) (dry_run : Bool) : ExecOutcome :=
  let docker_run_cmd := get_docker_run_argv container_name volumes environment
    docker_img docker_cmd euid egid
  if dry_run then .dryRun docker_run_cmd 0 else .exec docker_run_cmd

/-- The command rewriting of lines 356-366 of
`configure_and_run_docker_container`. -/
def assembleDockerCmd (docker_cmd spark_conf_str fqdn work_dir : String) : String :=
  if docker_cmd = "jupyter" then
    "jupyter notebook -y --ip=" ++ fqdn ++ " --notebook-dir="
      ++ (pySplitChar ':' work_dir).getD 1 ""
  else if docker_cmd = "pyspark" ∨ docker_cmd = "spark-shell" then
    docker_cmd ++ " " ++ spark_conf_str
  else if pyStartsWith docker_cmd "spark-submit" then
    "spark-submit " ++ spark_conf_str ++ pyDrop docker_cmd ("spark-submit".length)
  else docker_cmd

/-- `configure_and_run_docker_container` (lines 313-385).  The conf string is
synthesized from the filtered declarative bindings; the client-specific
bindings are appended afterwards (`finalVolumes`). -/
def configure_and_run_docker_container (args : SparkArgs) (docker_img : String)
    (cfgVolumes : List Volume) (pathExists : String → Bool)
    (spark_ui_port : Nat) (username fqdn : String)
    (instance_cmd : Option String) (instance_env : List (String × String))
    (access_key secret_key : String)
    (mesos_leader : String) (mesos_master_port : Nat)
    (secret_file : Option String) (euid egid : Nat) : Except ConfAbort ExecOutcome :=
  match get_spark_conf_entries args (containerName username spark_ui_port) spark_ui_port
      docker_img mesos_leader mesos_master_port secret_file
      (processVolumes cfgVolumes pathExists).1 with
  | .error e => .error e
  | .ok entries =>
    match (match args.cmd with | none => instance_cmd | some c => some c) with
    | none => .ok (.failed 1)
    | some docker_cmd =>
      .ok (run_docker_container (containerName username spark_ui_port)
            (finalVolumes args cfgVolumes pathExists)
            (dictUpdate instance_env
              (get_spark_env args (joinSep " " entries) access_key secret_key))
            docker_img
            (assembleDockerCmd docker_cmd (joinSep " " entries) fqdn args.work_dir)
            euid egid args.dry_run)

/- ------------------------------------------------------------------ -/
/- spark_run.py : validate_work_dir                                    -/
/- ------------------------------------------------------------------ -/

/-- The two `sys.exit(1)` reasons of `validate_work_dir` (lines 429-441). -/
inductive WorkDirError where
  | invalidFormat (s : String)
  | nonAbsolute (d : String)
deriving DecidableEq

/-- The `for d in dirs` loop: exit on the first non-absolute component. -/
def checkAbs : List String → Except WorkDirError Unit
  | [] => .ok ()
  | d :: rest => if pyIsAbs d then checkAbs rest else .error (.nonAbsolute d)

/-- `validate_work_dir` (lines 429-441). -/
def validate_work_dir (s : String) : Except WorkDirError Unit :=
  let dirs := pySplitChar ':' s
  if dirs.length ≠ 2 then .error (.invalidFormat s) else checkAbs dirs

/- ------------------------------------------------------------------ -/
/- secret_tools.py : is_secret_ref                                     -/
/- ------------------------------------------------------------------ -/

/-- The character class `[A-Za-z0-9_-]` of `SECRET_REGEX`. -/
def isSecretTokenChar (c : Char) : Bool :=
  c.isAlpha || c.isDigit || c == '_' || c == '-'

/-- Recognizes `token ++ [')']` where every token character is in the
class (`\([A-Za-z0-9_-]*\)$` after the opening literal). -/
def tokThenClose : List Char → Bool
  | [] => false
  | [c] => c == ')'
  | c :: c2 :: rest => isSecretTokenChar c && tokThenClose (c2 :: rest)

/-- An exact (whole-list) match of `SECRET\([A-Za-z0-9_-]*\)`. -/
def secretCore (cs : List Char) : Bool :=
  "SECRET(".data.isPrefixOf cs && tokThenClose (cs.drop 7)

/-- `is_secret_ref` (`secret_tools.py` lines 26-28): Python
`re.match("^SECRET\\([A-Za-z0-9_-]*\\)$", s)`.  In Python `re`, `$` matches
at the end of the string or just before a final newline, so the regex also
accepts a value with one trailing `'\n'`. -/
def is_secret_ref (env_var_val : String) : Bool :=
  secretCore env_var_val.data ||
    (match env_var_val.data.getLast? with
     | some c => c == '\n' && secretCore env_var_val.data.dropLast
     | none => false)

/- ------------------------------------------------------------------ -/
/- secret_tools.py : get_hmac_for_secret                               -/
/- ------------------------------------------------------------------ -/

/-- A parsed JSON document. -/
inductive Json where
  | null
  | bool (b : Bool)
  | num (n : Int)
  | str (s : String)
  | arr (elems : List Json)
  | obj (fields : List (String × Json))

/-- The Python exceptions relevant to the subscript chain of
`get_hmac_for_secret`: only `KeyError` is caught by the inner handler. -/
inductive PyExc where
  | keyError
  | typeError
deriving DecidableEq

/-- Python `j[k]` for a string key: a `dict` either yields the value or
raises `KeyError`; any non-`dict` raises `TypeError`. -/
def pyGetItem (j : Json) (k : String) : Except PyExc Json :=
  match j with
  | .obj fields =>
    match fields.lookup k with
    | some v => .ok v
    | none => .error .keyError
  | _ => .error .typeError

/-- The subscript chain `secret_file['environments'][vault_environment]['signature']`. -/
def jsonSignature (doc : Json) (vault_environment : String) : Except PyExc Json := do
  let envs ← pyGetItem doc "environments"
  let env ← pyGetItem envs vault_environment
  pyGetItem env "signature"

/-- Python `os.path.join(a, b)` on POSIX for a single pair. -/
def pathJoin (a b : String) : String :=
  if pyIsAbs b then b
  else if a = "" || a.data.getLast? == some '/' then a ++ b
  else a ++ "/" ++ b

/-- `get_secret_name_from_ref` (lines 60-61): `env_var_val.split('(')[1][:-1]`. -/
def get_secret_name_from_ref (env_var_val : String) : String :=
  ⟨((pySplitChar '(' env_var_val).getD 1 "").data.dropLast⟩

/-- `os.path.join(soa_dir, service, "secrets", "{}.json".format(secret_name))`. -/
def secretPathOf (soa_dir service env_var_val : String) : String :=
  pathJoin (pathJoin (pathJoin soa_dir service) "secrets")
    (get_secret_name_from_ref env_var_val ++ ".json")

/-- Outcome of opening and parsing the per-service secret file:
`missing` = `IOError` on `open`, `invalidJson` = `json.decoder.JSONDecodeError`
from `json.load`, `parsed` = the loaded document. -/
inductive FileRead where
  | missing
  | invalidJson
  | parsed (doc : Json)

/-- The three `print` diagnostics of `get_hmac_for_secret`, one per handled
failure, kept structured so their distinctness is manifest. -/
inductive HmacDiag where
  | openFailed (path : String)
  | decodeFailed (path : String)
  | sigMissing (vault_environment : String)

/-- The exact text each diagnostic prints. -/
def hmacDiagMessage : HmacDiag → String
  | .openFailed p => "Failed to open json secret at " ++ p
  | .decodeFailed p => "Failed to deserialise json secret at " ++ p
  | .sigMissing e =>
    "Failed to get secret signature at environments:" ++ e ++ ":signature in json file"

/-- Return value plus the diagnostic printed, if any. -/
structure HmacResult where
  value : Option Json
  diag : Option HmacDiag

/-- `get_hmac_for_secret` (lines 31-57).  `fs` is the local filesystem
oracle.  The handlers catch `IOError`, `JSONDecodeError` and `KeyError`;
a `TypeError` from subscripting a non-dict propagates (`Except.error`). -/
def get_hmac_for_secret (fs : String → FileRead)
    (env_var_val service soa_dir vault_environment : String) : Except PyExc HmacResult :=
  match fs (secretPathOf soa_dir service env_var_val) with
  | .missing => .ok ⟨none, some (.openFailed (secretPathOf soa_dir service env_var_val))⟩
  | .invalidJson => .ok ⟨none, some (.decodeFailed (secretPathOf soa_dir service env_var_val))⟩
  | .parsed doc =>
    match jsonSignature doc vault_environment with
    | .ok sig => .ok ⟨some sig, none⟩
    | .error .keyError => .ok ⟨none, some (.sigMissing vault_environment)⟩
    | .error .typeError => .error .typeError

/- ------------------------------------------------------------------ -/
/- Spec-side definitions (for order/refinement comparison)             -/
/- ------------------------------------------------------------------ -/

/-- The secret value the synthesizer ends up emitting: the explicitly
supplied one when truthy, otherwise the content of the secret file. -/
def resolvedSecret (args : SparkArgs) (secret_file : Option String) : String :=
  if truthyStr args.mesos_secret then args.mesos_secret.getD "" else secret_file.getD ""

/-- The configuration-entry sequence in the fixed order of spec section 4.3,
with the optional entries amended to the code's truthiness conditions:
driver entries only when supplied nonzero, the jars entry only when supplied
non-empty, the registry hint only when the image was neither built nor
supplied non-empty. -/
def specConfOrder (args : SparkArgs) (container_name : String) (spark_ui_port : Nat)
    (docker_img mesos_leader : String) (mesos_master_port : Nat)
    (secret_value : String) (volumes : List String) : List String :=
  ["--conf spark.app.name=" ++ container_name]
  ++ ["--conf spark.ui.port=" ++ toString spark_ui_port]
  ++ ["--conf spark.master=mesos://" ++ mesos_leader ++ ":" ++ toString mesos_master_port]
  ++ ["--conf spark.cores.max=" ++ toString args.max_cores]
  ++ ["--conf spark.executor.memory=" ++ toString args.executor_memory ++ "g"]
  ++ ["--conf spark.executor.cores=" ++ toString args.executor_cores]
  ++ (if truthyInt args.driver_max_result_size then
        ["--conf spark.driver.maxResultSize=" ++ toString (args.driver_max_result_size.getD 0) ++ "g"]
      else [])
  ++ (if truthyInt args.driver_memory then
        ["--conf spark.driver.memory=" ++ toString (args.driver_memory.getD 0) ++ "g"]
      else [])
  ++ (if truthyInt args.driver_cores then
        ["--conf spark.driver.cores=" ++ toString (args.driver_cores.getD 0)]
      else [])
  ++ ["--conf spark.mesos.executor.docker.image=" ++ docker_img]
  ++ (if !args.build && !truthyStr args.image then
        ["--conf spark.mesos.uris=file:///root/.dockercfg"]
      else [])
  ++ (if truthyStr args.jars then ["--conf spark.jars=" ++ args.jars.getD ""] else [])
  ++ ["--conf spark.mesos.principal=" ++ args.mesos_principal]
  ++ ["--conf spark.mesos.secret=" ++ secret_value]
  ++ ["--conf spark.driver.extraJavaOptions=-Dderby.system.home=/tmp/derby"]
  ++ ["--conf spark.mesos.constraints=pool:" ++ args.pool]
  ++ ["--conf spark.mesos.executor.docker.volumes=" ++ joinSep "," volumes]

/-- The entry sequence exactly as claim C1 words it: the same fixed order,
but with the three optional driver entries included whenever the option was
supplied at all (a presence test rather than the code's truthiness test). -/
def claimedConfOrder (args : SparkArgs) (container_name : String) (spark_ui_port : Nat)
    (docker_img mesos_leader : String) (mesos_master_port : Nat)
    (secret_value : String) (volumes : List String) : List String :=
  ["--conf spark.app.name=" ++ container_name]
  ++ ["--conf spark.ui.port=" ++ toString spark_ui_port]
  ++ ["--conf spark.master=mesos://" ++ mesos_leader ++ ":" ++ toString mesos_master_port]
  ++ ["--conf spark.cores.max=" ++ toString args.max_cores]
  ++ ["--conf spark.executor.memory=" ++ toString args.executor_memory ++ "g"]
  ++ ["--conf spark.executor.cores=" ++ toString args.executor_cores]
  ++ (if args.driver_max_result_size.isSome then
        ["--conf spark.driver.maxResultSize=" ++ toString (args.driver_max_result_size.getD 0) ++ "g"]
      else [])
  ++ (if args.driver_memory.isSome then
        ["--conf spark.driver.memory=" ++ toString (args.driver_memory.getD 0) ++ "g"]
      else [])
  ++ (if args.driver_cores.isSome then
        ["--conf spark.driver.cores=" ++ toString (args.driver_cores.getD 0)]
      else [])
  ++ ["--conf spark.mesos.executor.docker.image=" ++ docker_img]
  ++ (if !args.build && !truthyStr args.image then
        ["--conf spark.mesos.uris=file:///root/.dockercfg"]
      else [])
  ++ (if truthyStr args.jars then ["--conf spark.jars=" ++ args.jars.getD ""] else [])
  ++ ["--conf spark.mesos.principal=" ++ args.mesos_principal]
  ++ ["--conf spark.mesos.secret=" ++ secret_value]
  ++ ["--conf spark.driver.extraJavaOptions=-Dderby.system.home=/tmp/derby"]
  ++ ["--conf spark.mesos.constraints=pool:" ++ args.pool]
  ++ ["--conf spark.mesos.executor.docker.volumes=" ++ joinSep "," volumes]

/- ------------------------------------------------------------------ -/
/- Concrete fixtures for counterexamples and witnesses                 -/
/- ------------------------------------------------------------------ -/

/-- A baseline request: the argparse defaults with an explicit secret and
a work dir of `/w:/x`. -/
def argsW : SparkArgs :=
  { build := false, image := none, cluster := "norcal-devc", jars := none, pool := "default",
    work_dir := "/w:/x", cmd := some "pyspark", dry_run := true, mesos_principal := "spark",
    mesos_secret := some "x", executor_memory := 4, executor_cores := 2, max_cores := 4,
    driver_max_result_size := none, driver_memory := none, driver_cores := none }

/-- The baseline request with `--driver-memory 0` supplied explicitly. -/
def argsC1 : SparkArgs := { argsW with driver_memory := some 0 }

/-- An existence oracle under which only `/host` exists. -/
def exC : String → Bool := fun p => p == "/host"

/- ------------------------------------------------------------------ -/
/- Helper lemmas                                                       -/
/- ------------------------------------------------------------------ -/

lemma str_data_append (a b : String) : (a ++ b).data = a.data ++ b.data := rfl

lemma isPrefixOf_self_append (l t : List Char) : l.isPrefixOf (l ++ t) = true := by
  rw [List.isPrefixOf_iff_prefix]
  exact List.prefix_append l t

lemma checkAbs_ok_iff (l : List String) :
    checkAbs l = .ok () ↔ ∀ d ∈ l, pyIsAbs d = true := by
  induction l with
  | nil => simp [checkAbs]
  | cons d rest ih =>
    by_cases h : pyIsAbs d = true
    · simp [checkAbs, h, ih]
    · simp only [Bool.not_eq_true] at h
      simp [checkAbs, h]

/-- Claim C4: for every command string beginning with `spark-submit`, the
assembled container command is the keyword, then the synthesized
configuration string spliced immediately after it, then the user's trailing
arguments preserved verbatim. -/
theorem C4_spark_submit_splice (rest conf fqdn wd : String) :
    assembleDockerCmd ("spark-submit" ++ rest) conf fqdn wd
      = "spark-submit " ++ conf ++ rest := by
  have h12 : ("spark-submit" : String).length = 12 := rfl
  have hlen : ("spark-submit" ++ rest).length = 12 + rest.length := by
    rw [String.length_append, h12]
  have h1 : ("spark-submit" ++ rest) ≠ "jupyter" := by
    intro h
    have h7 : ("jupyter" : String).length = 7 := rfl
    have := congrArg String.length h
    rw [hlen, h7] at this
    omega
  have h2 : ¬(("spark-submit" ++ rest) = "pyspark" ∨ ("spark-submit" ++ rest) = "spark-shell") := by
    rintro (h | h)
    · have h7 : ("pyspark" : String).length = 7 := rfl
      have := congrArg String.length h
      rw [hlen, h7] at this
      omega
    · have h11 : ("spark-shell" : String).length = 11 := rfl
      have := congrArg String.length h
      rw [hlen, h11] at this
      omega
  have h3 : pyStartsWith ("spark-submit" ++ rest) "spark-submit" = true := by
    unfold pyStartsWith
    rw [str_data_append]
    exact isPrefixOf_self_append _ _
  have h4 : pyDrop ("spark-submit" ++ rest) ("spark-submit".length) = rest := by
    unfold pyDrop
    rw [str_data_append]
    have hd : ("spark-submit" : String).length = ("spark-submit" : String).data.length := rfl
    rw [hd, List.drop_left]
  rw [assembleDockerCmd, if_neg h1, if_neg h2, if_pos h3, h4]

/-- Claim C5: with the dry-run flag set, `run_docker_container` never takes
the live execution path; it serializes the fully assembled argument vector
and returns 0, and the serialized list is exactly the argument vector that
live mode passes to the process-replacement call. -/
theorem C5_dry_run (container_name : String) (volumes : List String)
    (environment : List (String × String)) (docker_img docker_cmd : String) (euid egid : Nat) :
    run_docker_container container_name volumes environment docker_img docker_cmd euid egid true
      = .dryRun (get_docker_run_argv container_name volumes environment docker_img docker_cmd euid egid) 0
    ∧ run_docker_container container_name volumes environment docker_img docker_cmd euid egid false
      = .exec (get_docker_run_argv container_name volumes environment docker_img docker_cmd euid egid) :=
  ⟨rfl, rfl⟩

/-- Claim C6: `validate_work_dir` splits its input on `':'` and fails unless
exactly two components result, all absolute; pure on success.  In
particular `a:b` fails (non-absolute), `/a:/b` passes, and `/a:/b:/c`
fails (wrong arity). -/
theorem C6_validate_work_dir :
    (∀ s : String, validate_work_dir s = .ok () ↔
       ((pySplitChar ':' s).length = 2 ∧ ∀ d ∈ pySplitChar ':' s, pyIsAbs d = true))
    ∧ validate_work_dir "a:b" = .error (.nonAbsolute "a")
    ∧ validate_work_dir "/a:/b" = .ok ()
    ∧ validate_work_dir "/a:/b:/c" = .error (.invalidFormat "/a:/b:/c") := by
  refine ⟨?_, rfl, rfl, rfl⟩
  intro s
  unfold validate_work_dir
  by_cases h : (pySplitChar ':' s).length = 2
  · simp [h, checkAbs_ok_iff]
  · simp [h]

/-- Claim C10: the three optional driver entries are included by a
truthiness test, not a presence test: supplying the value 0 yields exactly
the configuration of not supplying the option at all. -/
theorem C10_driver_truthiness (args : SparkArgs) (container_name : String) (spark_ui_port : Nat)
    (docker_img mesos_leader : String) (mesos_master_port : Nat)
    (secret_file : Option String) (volumes : List String) :
    get_spark_conf_str { args with driver_max_result_size := some 0 } container_name spark_ui_port
        docker_img mesos_leader mesos_master_port secret_file volumes
      = get_spark_conf_str { args with driver_max_result_size := none } container_name spark_ui_port
        docker_img mesos_leader mesos_master_port secret_file volumes
    ∧ get_spark_conf_str { args with driver_memory := some 0 } container_name spark_ui_port
        docker_img mesos_leader mesos_master_port secret_file volumes
      = get_spark_conf_str { args with driver_memory := none } container_name spark_ui_port
        docker_img mesos_leader mesos_master_port secret_file volumes
    ∧ get_spark_conf_str { args with driver_cores := some 0 } container_name spark_ui_port
        docker_img mesos_leader mesos_master_port secret_file volumes
      = get_spark_conf_str { args with driver_cores := none } container_name spark_ui_port
        docker_img mesos_leader mesos_master_port secret_file volumes := by
  refine ⟨?_, ?_, ?_⟩ <;>
    simp [get_spark_conf_str, get_spark_conf_entries, confEntriesPre, confEntriesPost,
      secretConfEntry, truthyInt]

lemma tokThenClose_iff (cs : List Char) :
    tokThenClose cs = true ↔
      ∃ t : List Char, (∀ c ∈ t, isSecretTokenChar c = true) ∧ cs = t ++ [')'] := by
  induction cs with
  | nil =>
    simp [tokThenClose]
  | cons c cs ih =>
    cases cs with
    | nil =>
      simp only [tokThenClose, beq_iff_eq]
      constructor
      · intro h
        exact ⟨[], by simp, by simp [h]⟩
      · rintro ⟨t, _, ht⟩
        have : t = [] := by
          cases t with
          | nil => rfl
          | cons a t =>
            have := congrArg List.length ht
            simp at this
        subst this
        simpa using ht.symm.symm
    | cons c2 rest =>
      simp only [tokThenClose, Bool.and_eq_true, ih]
      constructor
      · rintro ⟨hc, t, hcls, ht⟩
        exact ⟨c :: t, by simpa [hc] using hcls, by simp [ht]⟩
      · rintro ⟨t, hcls, ht⟩
        cases t with
        | nil =>
          have := congrArg List.length ht
          simp at this
        | cons a t =>
          simp only [List.cons_append, List.cons.injEq] at ht
          obtain ⟨rfl, ht⟩ := ht
          refine ⟨hcls _ (by simp), t, fun x hx => hcls x (by simp [hx]), ht⟩

lemma secretCore_iff (cs : List Char) :
    secretCore cs = true ↔
      ∃ t : List Char, (∀ c ∈ t, isSecretTokenChar c = true)
        ∧ cs = "SECRET(".data ++ t ++ [')'] := by
  unfold secretCore
  simp only [Bool.and_eq_true, List.isPrefixOf_iff_prefix]
  constructor
  · rintro ⟨⟨suf, hsuf⟩, htok⟩
    have hdrop : cs.drop 7 = suf := by
      have h7 : (7 : Nat) = ("SECRET(".data).length := rfl
      rw [← hsuf, h7, List.drop_left]
    rw [hdrop] at htok
    obtain ⟨t, hcls, ht⟩ := tokThenClose_iff suf |>.mp htok
    exact ⟨t, hcls, by rw [← hsuf, ht, List.append_assoc]⟩
  · rintro ⟨t, hcls, rfl⟩
    constructor
    · exact ⟨t ++ [')'], by rw [List.append_assoc]⟩
    · have h7 : (7 : Nat) = ("SECRET(".data).length := rfl
      rw [List.append_assoc, h7, List.drop_left]
      exact (tokThenClose_iff _).mpr ⟨t, hcls, rfl⟩

lemma trailingNewline_iff (cs : List Char) :
    (match cs.getLast? with
     | some c => c == '\n' && secretCore cs.dropLast
     | none => false) = true
      ↔ ∃ ys : List Char, cs = ys ++ ['\n'] ∧ secretCore ys = true := by
  induction cs using List.reverseRecOn with
  | nil => simp
  | append_singleton ys y _ =>
    rw [List.getLast?_concat, List.dropLast_concat]
    simp only [beq_iff_eq, Bool.and_eq_true]
    constructor
    · rintro ⟨rfl, h⟩
      exact ⟨ys, rfl, h⟩
    · rintro ⟨zs, hz, h⟩
      obtain ⟨rfl, rfl⟩ : ys = zs ∧ y = '\n' := by
        have := List.append_inj' hz rfl
        simpa using this
      exact ⟨rfl, h⟩

/-- Claim C3 (amended): `is_secret_ref` returns true iff the value is
exactly `SECRET(<token>)` with the token over letters, digits, underscore,
hyphen (possibly empty) — or that same form followed by one trailing
newline, which Python's `$` anchor also accepts. -/
theorem C3_is_secret_ref_amended (s : String) :
    is_secret_ref s = true ↔
      ∃ t : List Char, (∀ c ∈ t, isSecretTokenChar c = true)
        ∧ (s.data = "SECRET(".data ++ t ++ [')']
           ∨ s.data = "SECRET(".data ++ t ++ [')'] ++ ['\n']) := by
  unfold is_secret_ref
  rw [Bool.or_eq_true, secretCore_iff, trailingNewline_iff]
  constructor
  · rintro (⟨t, hcls, ht⟩ | ⟨ys, hys, hcore⟩)
    · exact ⟨t, hcls, Or.inl ht⟩
    · obtain ⟨t, hcls, ht⟩ := (secretCore_iff ys).mp hcore
      exact ⟨t, hcls, Or.inr (by rw [hys, ht])⟩
  · rintro ⟨t, hcls, ht | ht⟩
    · exact Or.inl ⟨t, hcls, ht⟩
    · exact Or.inr ⟨"SECRET(".data ++ t ++ [')'], ht,
        (secretCore_iff _).mpr ⟨t, hcls, rfl⟩⟩

/-- Claim C3 counterexample: the claim demands false for `SECRET(a)`
followed by anything, but a single trailing newline is accepted. -/
theorem C3_counterexample :
    is_secret_ref "SECRET(a)\n" = true
    ∧ is_secret_ref "xSECRET(a)" = false
    ∧ is_secret_ref "SECRET(a)x" = false := by
  refine ⟨by decide, by decide, by decide⟩

/-- Claim C3 witness: a valid token over the full character class. -/
theorem C3_witness : is_secret_ref "SECRET(ab-c_1)" = true :=
  (C3_is_secret_ref_amended "SECRET(ab-c_1)").mpr
    ⟨['a', 'b', '-', 'c', '_', '1'], by decide, Or.inl (by decide)⟩

/-- Claim C1 (amended): every successfully synthesized configuration
string is the space-join of `--conf key=value` entries in exactly the fixed
order of spec section 4.3, with the optional driver entries present iff
supplied nonzero (and the jars/registry-hint entries governed by the code's
truthiness tests). -/
theorem C1_conf_order_amended (args : SparkArgs) (container_name : String) (spark_ui_port : Nat)
    (docker_img mesos_leader : String) (mesos_master_port : Nat)
    (secret_file : Option String) (volumes : List String) (s : String)
    (h : get_spark_conf_str args container_name spark_ui_port docker_img mesos_leader
          mesos_master_port secret_file volumes = .ok s) :
    s = joinSep " " (specConfOrder args container_name spark_ui_port docker_img mesos_leader
          mesos_master_port (resolvedSecret args secret_file) volumes) := by
  unfold get_spark_conf_str get_spark_conf_entries at h
  cases hs : secretConfEntry args secret_file with
  | error e => rw [hs] at h; simp [Except.map] at h
  | ok se =>
    rw [hs] at h
    simp only [Except.map, Except.ok.injEq] at h
    have hse : se = "--conf spark.mesos.secret=" ++ resolvedSecret args secret_file := by
      unfold secretConfEntry at hs
      unfold resolvedSecret
      by_cases ht : truthyStr args.mesos_secret
      · simp [ht] at hs ⊢
        exact hs.symm
      · simp only [Bool.not_eq_true] at ht
        cases secret_file with
        | none => simp [ht] at hs
        | some content => simp [ht] at hs ⊢; exact hs.symm
    subst hse
    rw [← h]
    unfold specConfOrder confEntriesPre confEntriesPost
    simp [List.append_assoc]

set_option maxRecDepth 8000 in
/-- Claim C1 counterexample: with `--driver-memory 0` supplied, the code
omits the driver-memory entry, so the output differs from the claimed
sequence in which each driver entry appears whenever supplied. -/
theorem C1_counterexample :
    get_spark_conf_str argsC1 "n" 1 "i" "L" 5050 none ["v"]
      = .ok (joinSep " " (specConfOrder argsC1 "n" 1 "i" "L" 5050 "x" ["v"]))
    ∧ "--conf spark.driver.memory=0g" ∈ claimedConfOrder argsC1 "n" 1 "i" "L" 5050 "x" ["v"]
    ∧ "--conf spark.driver.memory=0g" ∉ specConfOrder argsC1 "n" 1 "i" "L" 5050 "x" ["v"]
    ∧ joinSep " " (specConfOrder argsC1 "n" 1 "i" "L" 5050 "x" ["v"])
        ≠ joinSep " " (claimedConfOrder argsC1 "n" 1 "i" "L" 5050 "x" ["v"]) := by
  refine ⟨rfl, by decide, by decide, by decide⟩

set_option maxRecDepth 8000 in
/-- Claim C1 witness: the amended theorem applied to a concrete request,
with the resulting configuration string spelled out. -/
theorem C1_witness :
    ("--conf spark.app.name=n --conf spark.ui.port=1 --conf spark.master=mesos://L:5050"
      ++ " --conf spark.cores.max=4 --conf spark.executor.memory=4g --conf spark.executor.cores=2"
      ++ " --conf spark.mesos.executor.docker.image=i --conf spark.mesos.uris=file:///root/.dockercfg"
      ++ " --conf spark.mesos.principal=spark --conf spark.mesos.secret=x"
      ++ " --conf spark.driver.extraJavaOptions=-Dderby.system.home=/tmp/derby"
      ++ " --conf spark.mesos.constraints=pool:default --conf spark.mesos.executor.docker.volumes=v")
      = joinSep " " (specConfOrder argsW "n" 1 "i" "L" 5050 (resolvedSecret argsW none) ["v"]) :=
  C1_conf_order_amended argsW "n" 1 "i" "L" 5050 none ["v"] _ rfl

/-- Claim C7 (amended): when the supplied secret is truthy (non-empty) the
secret file is never read (the result is independent of its content); when
the secret is absent or empty, a failed read of the fixed secret file is
fatal with exit status 1 and the attempted path printed, and a successful
read emits the file content as the secret entry. -/
theorem C7_secret_file_amended (args : SparkArgs) (container_name : String) (spark_ui_port : Nat)
    (docker_img mesos_leader : String) (mesos_master_port : Nat) (volumes : List String) :
    (∀ s, args.mesos_secret = some s → s ≠ "" →
      ∀ f1 f2 : Option String,
        get_spark_conf_str args container_name spark_ui_port docker_img mesos_leader
            mesos_master_port f1 volumes
          = get_spark_conf_str args container_name spark_ui_port docker_img mesos_leader
            mesos_master_port f2 volumes)
    ∧ (truthyStr args.mesos_secret = false →
        get_spark_conf_str args container_name spark_ui_port docker_img mesos_leader
            mesos_master_port none volumes
          = .error ⟨"Cannot load mesos secret from " ++ DEFAULT_SPARK_MESOS_SECRET_FILE, 1⟩)
    ∧ (∀ content, truthyStr args.mesos_secret = false →
        get_spark_conf_entries args container_name spark_ui_port docker_img mesos_leader
            mesos_master_port (some content) volumes
          = .ok (confEntriesPre args container_name spark_ui_port docker_img mesos_leader
                  mesos_master_port
                ++ ["--conf spark.mesos.secret=" ++ content]
                ++ confEntriesPost args volumes)) := by
  refine ⟨?_, ?_, ?_⟩
  · intro s hs hne f1 f2
    have ht : truthyStr args.mesos_secret = true := by
      simp [truthyStr, hs, hne]
    unfold get_spark_conf_str get_spark_conf_entries secretConfEntry
    rw [ht]
    simp
  · intro ht
    unfold get_spark_conf_str get_spark_conf_entries secretConfEntry
    rw [ht]
    simp [Except.map]
  · intro content ht
    unfold get_spark_conf_entries secretConfEntry
    rw [ht]
    simp

/-- Claim C7 counterexample: a secret supplied explicitly as the empty
string is treated as absent (truthiness), so the secret file is still
consulted — the result depends on the file and can abort. -/
theorem C7_counterexample :
    ({ argsW with mesos_secret := some "" } : SparkArgs).mesos_secret = some ""
    ∧ get_spark_conf_str { argsW with mesos_secret := some "" } "n" 1 "i" "L" 5050 none ["v"]
        = .error ⟨"Cannot load mesos secret from /nail/etc/paasta_spark_secret", 1⟩
    ∧ exceptOk (get_spark_conf_str { argsW with mesos_secret := some "" } "n" 1 "i" "L" 5050
        (some "filesecret") ["v"]) = true := by
  exact ⟨rfl, rfl, rfl⟩

/-- Claim C7 witness: the three amended conjuncts at concrete requests. -/
theorem C7_witness :
    get_spark_conf_str argsW "n" 1 "i" "L" 5050 none ["v"]
      = get_spark_conf_str argsW "n" 1 "i" "L" 5050 (some "other") ["v"]
    ∧ get_spark_conf_str { argsW with mesos_secret := none } "n" 1 "i" "L" 5050 none ["v"]
      = .error ⟨"Cannot load mesos secret from " ++ DEFAULT_SPARK_MESOS_SECRET_FILE, 1⟩
    ∧ get_spark_conf_entries { argsW with mesos_secret := none } "n" 1 "i" "L" 5050
        (some "filesecret") ["v"]
      = .ok (confEntriesPre { argsW with mesos_secret := none } "n" 1 "i" "L" 5050
            ++ ["--conf spark.mesos.secret=filesecret"]
            ++ confEntriesPost { argsW with mesos_secret := none } ["v"]) :=
  ⟨(C7_secret_file_amended argsW "n" 1 "i" "L" 5050 ["v"]).1 "x" rfl (by decide) none (some "other"),
   (C7_secret_file_amended { argsW with mesos_secret := none } "n" 1 "i" "L" 5050 ["v"]).2.1 rfl,
   (C7_secret_file_amended { argsW with mesos_secret := none } "n" 1 "i" "L" 5050 ["v"]).2.2
     "filesecret" rfl⟩

lemma configure_isOk_eq (args : SparkArgs) (docker_img : String)
    (cfgVolumes : List Volume) (pathExists : String → Bool)
    (spark_ui_port : Nat) (username fqdn : String)
    (instance_cmd : Option String) (instance_env : List (String × String))
    (access_key secret_key : String) (mesos_leader : String) (mesos_master_port : Nat)
    (secret_file : Option String) (euid egid : Nat) :
    exceptOk (configure_and_run_docker_container args docker_img cfgVolumes pathExists
        spark_ui_port username fqdn instance_cmd instance_env access_key secret_key
        mesos_leader mesos_master_port secret_file euid egid)
      = exceptOk (secretConfEntry args secret_file) := by
  unfold configure_and_run_docker_container get_spark_conf_entries
  cases hs : secretConfEntry args secret_file with
  | error e => simp [exceptOk]
  | ok se =>
    cases args.cmd with
    | none =>
      cases instance_cmd with
      | none => simp [exceptOk]
      | some c => simp [exceptOk]
    | some c => simp [exceptOk]

/-- Claim C2 (amended): bindings derived from the declarative config are
kept iff their host path exists (mode lower-cased) and dropped with a
warning otherwise, never affecting success; the mandatory client-side
bindings (work dir `rw`, `/etc/passwd` and `/etc/group` read-only) are
appended unconditionally, without any existence check. -/
theorem C2_volume_filter_amended :
    (∀ (cfgVolumes : List Volume) (pathExists : String → Bool),
      (processVolumes cfgVolumes pathExists).1
        = (cfgVolumes.filter (fun v => pathExists v.hostPath)).map formatVolume
      ∧ (processVolumes cfgVolumes pathExists).2
        = (cfgVolumes.filter (fun v => !pathExists v.hostPath)).map
            (fun v => "Warning: Path " ++ v.hostPath
              ++ " does not exist on this host. Skipping this binding."))
    ∧ (∀ (args : SparkArgs) (cfgVolumes : List Volume) (pathExists : String → Bool),
        finalVolumes args cfgVolumes pathExists
          = (processVolumes cfgVolumes pathExists).1
            ++ [args.work_dir ++ ":rw", "/etc/passwd:/etc/passwd:ro", "/etc/group:/etc/group:ro"])
    ∧ (∀ (args : SparkArgs) (docker_img : String) (cfgVolumes : List Volume)
        (pathExists pathExists' : String → Bool) (spark_ui_port : Nat) (username fqdn : String)
        (instance_cmd : Option String) (instance_env : List (String × String))
        (access_key secret_key mesos_leader : String) (mesos_master_port : Nat)
        (secret_file : Option String) (euid egid : Nat),
        exceptOk (configure_and_run_docker_container args docker_img cfgVolumes pathExists
            spark_ui_port username fqdn instance_cmd instance_env access_key secret_key
            mesos_leader mesos_master_port secret_file euid egid)
          = exceptOk (configure_and_run_docker_container args docker_img cfgVolumes pathExists'
            spark_ui_port username fqdn instance_cmd instance_env access_key secret_key
            mesos_leader mesos_master_port secret_file euid egid)) := by
  refine ⟨?_, fun _ _ _ => rfl, ?_⟩
  · intro cfgVolumes pathExists
    induction cfgVolumes with
    | nil => exact ⟨rfl, rfl⟩
    | cons v rest ih =>
      by_cases h : pathExists v.hostPath
      · simpa [processVolumes, h] using ih
      · simp only [Bool.not_eq_true] at h
        simpa [processVolumes, h] using ih
  · intro args docker_img cfgVolumes pathExists pathExists' spark_ui_port username fqdn
      instance_cmd instance_env access_key secret_key mesos_leader mesos_master_port
      secret_file euid egid
    rw [configure_isOk_eq, configure_isOk_eq]

/-- Claim C2 counterexample: with a work dir whose host path does not
exist, the final volume list still contains its binding (and the identity
files are never existence-checked), so not every binding handed to the
container invocation has an existing host path. -/
theorem C2_counterexample :
    finalVolumes argsW [⟨"/host", "/c", "RW"⟩] exC
      = ["/host:/c:rw", "/w:/x:rw", "/etc/passwd:/etc/passwd:ro", "/etc/group:/etc/group:ro"]
    ∧ exC (bindingHostPath "/w:/x:rw") = false
    ∧ exC (bindingHostPath "/etc/passwd:/etc/passwd:ro") = false
    ∧ ("--volume=/w:/x:rw") ∈ get_docker_run_argv "cn" (finalVolumes argsW [⟨"/host", "/c", "RW"⟩] exC)
        [] "img" "cmd" 0 0 := by
  exact ⟨rfl, rfl, rfl, by decide⟩

/-- Claim C9: the configuration string is synthesized from the
existence-filtered declarative bindings only — its volumes entry is their
comma-join — while the mandatory client-side bindings are appended to the
volume list after synthesis and therefore appear among the `--volume`
flags of the container invocation but not in the synthesized list. -/
theorem C9_volumes_placement (args : SparkArgs) (docker_img : String)
    (cfgVolumes : List Volume) (pathExists : String → Bool)
    (spark_ui_port : Nat) (username fqdn : String)
    (instance_cmd : Option String) (instance_env : List (String × String))
    (access_key secret_key mesos_leader : String) (mesos_master_port : Nat)
    (secret_file : Option String) (euid egid : Nat) :
    (configure_and_run_docker_container args docker_img cfgVolumes pathExists spark_ui_port
        username fqdn instance_cmd instance_env access_key secret_key mesos_leader
        mesos_master_port secret_file euid egid
      = match get_spark_conf_entries args (containerName username spark_ui_port) spark_ui_port
            docker_img mesos_leader mesos_master_port secret_file
            (processVolumes cfgVolumes pathExists).1 with
        | .error e => .error e
        | .ok entries =>
          match (match args.cmd with | none => instance_cmd | some c => some c) with
          | none => .ok (.failed 1)
          | some docker_cmd =>
            .ok (run_docker_container (containerName username spark_ui_port)
                  (finalVolumes args cfgVolumes pathExists)
                  (dictUpdate instance_env
                    (get_spark_env args (joinSep " " entries) access_key secret_key))
                  docker_img
                  (assembleDockerCmd docker_cmd (joinSep " " entries) fqdn args.work_dir)
                  euid egid args.dry_run))
    ∧ (∀ (container_name : String) (volumes : List String),
        get_spark_conf_entries args container_name spark_ui_port docker_img mesos_leader
            mesos_master_port secret_file volumes
          = Except.map
              (fun se => confEntriesPre args container_name spark_ui_port docker_img
                  mesos_leader mesos_master_port
                ++ [se] ++ confEntriesPost args volumes)
              (secretConfEntry args secret_file))
    ∧ (∀ (container_name se : String) (volumes : List String),
        (confEntriesPre args container_name spark_ui_port docker_img mesos_leader
            mesos_master_port ++ [se] ++ confEntriesPost args volumes).getLast?
          = some ("--conf spark.mesos.executor.docker.volumes=" ++ joinSep "," volumes))
    ∧ (∀ (environment : List (String × String)) (docker_cmd : String),
        ("--volume=" ++ (args.work_dir ++ ":rw"))
            ∈ get_docker_run_argv (containerName username spark_ui_port)
                (finalVolumes args cfgVolumes pathExists) environment docker_img docker_cmd euid egid
        ∧ "--volume=/etc/passwd:/etc/passwd:ro"
            ∈ get_docker_run_argv (containerName username spark_ui_port)
                (finalVolumes args cfgVolumes pathExists) environment docker_img docker_cmd euid egid
        ∧ "--volume=/etc/group:/etc/group:ro"
            ∈ get_docker_run_argv (containerName username spark_ui_port)
                (finalVolumes args cfgVolumes pathExists) environment docker_img docker_cmd euid egid) := by
  refine ⟨rfl, ?_, ?_, ?_⟩
  · intro container_name volumes
    unfold get_spark_conf_entries
    cases secretConfEntry args secret_file <;> rfl
  · intro container_name se volumes
    rw [List.getLast?_append_of_ne_nil _ (by simp [confEntriesPost])]
    rfl
  · intro environment docker_cmd
    refine ⟨?_, ?_, ?_⟩ <;>
    · unfold get_docker_run_argv finalVolumes
      simp [List.mem_append]

/-- Claim C8 (amended): `get_hmac_for_secret` returns no value, with a
distinct diagnostic, when the per-service secret file is missing, is not
valid JSON, or lacks the environment/signature key; it returns the nested
signature on success.  However it is not exception-free: when an indexed
value is a non-dict (e.g. the document is a JSON array), a `TypeError`
escapes, the only way an exception can propagate. -/
theorem C8_get_hmac_amended (fs : String → FileRead)
    (env_var_val service soa_dir vault_environment : String) :
    (fs (secretPathOf soa_dir service env_var_val) = .missing →
      get_hmac_for_secret fs env_var_val service soa_dir vault_environment
        = .ok ⟨none, some (.openFailed (secretPathOf soa_dir service env_var_val))⟩)
    ∧ (fs (secretPathOf soa_dir service env_var_val) = .invalidJson →
        get_hmac_for_secret fs env_var_val service soa_dir vault_environment
          = .ok ⟨none, some (.decodeFailed (secretPathOf soa_dir service env_var_val))⟩)
    ∧ (∀ doc, fs (secretPathOf soa_dir service env_var_val) = .parsed doc →
        jsonSignature doc vault_environment = .error .keyError →
        get_hmac_for_secret fs env_var_val service soa_dir vault_environment
          = .ok ⟨none, some (.sigMissing vault_environment)⟩)
    ∧ (∀ doc sig, fs (secretPathOf soa_dir service env_var_val) = .parsed doc →
        jsonSignature doc vault_environment = .ok sig →
        get_hmac_for_secret fs env_var_val service soa_dir vault_environment
          = .ok ⟨some sig, none⟩)
    ∧ (∀ e, get_hmac_for_secret fs env_var_val service soa_dir vault_environment = .error e →
        e = .typeError
        ∧ ∃ doc, fs (secretPathOf soa_dir service env_var_val) = .parsed doc
            ∧ jsonSignature doc vault_environment = .error .typeError) := by
  refine ⟨?_, ?_, ?_, ?_, ?_⟩
  · intro h
    simp only [get_hmac_for_secret, h]
  · intro h
    simp only [get_hmac_for_secret, h]
  · intro doc h hsig
    simp only [get_hmac_for_secret, h, hsig]
  · intro doc sig h hsig
    simp only [get_hmac_for_secret, h, hsig]
  · intro e h
    cases hfs : fs (secretPathOf soa_dir service env_var_val) with
    | missing =>
      simp only [get_hmac_for_secret, hfs] at h
      exact Except.noConfusion h
    | invalidJson =>
      simp only [get_hmac_for_secret, hfs] at h
      exact Except.noConfusion h
    | parsed doc =>
      cases hsig : jsonSignature doc vault_environment with
      | ok sig =>
        simp only [get_hmac_for_secret, hfs, hsig] at h
        exact Except.noConfusion h
      | error pe =>
        cases pe with
        | keyError =>
          simp only [get_hmac_for_secret, hfs, hsig] at h
          exact Except.noConfusion h
        | typeError =>
          simp only [get_hmac_for_secret, hfs, hsig, Except.error.injEq] at h
          exact ⟨h.symm, doc, rfl, hsig⟩

/-- Claim C8 counterexample: a secret file holding the valid JSON document
`[]` makes `get_hmac_for_secret` raise an uncaught `TypeError` instead of
returning no value, refuting the claim that it never throws. -/
theorem C8_counterexample :
    get_hmac_for_secret
        (fun p => if p = "/soa/svc/secrets/tok.json" then .parsed (.arr []) else .missing)
        "SECRET(tok)" "svc" "/soa" "dev"
      = .error .typeError
    ∧ exceptThrew (get_hmac_for_secret
        (fun p => if p = "/soa/svc/secrets/tok.json" then .parsed (.arr []) else .missing)
        "SECRET(tok)" "svc" "/soa" "dev") = true :=
  ⟨rfl, rfl⟩

/-- A well-formed secret document carrying a signature for `dev`. -/
def goodDoc : Json :=
  .obj [("environments", .obj [("dev", .obj [("signature", .str "sighash")])])]

/-- Claim C8 witness: the amended per-case conjuncts at concrete stores. -/
theorem C8_witness :
    get_hmac_for_secret (fun _ => .missing) "SECRET(t)" "v" "/s" "dev"
      = .ok ⟨none, some (.openFailed "/s/v/secrets/t.json")⟩
    ∧ get_hmac_for_secret (fun _ => .invalidJson) "SECRET(t)" "v" "/s" "dev"
      = .ok ⟨none, some (.decodeFailed "/s/v/secrets/t.json")⟩
    ∧ get_hmac_for_secret (fun _ => .parsed (.obj [])) "SECRET(t)" "v" "/s" "dev"
      = .ok ⟨none, some (.sigMissing "dev")⟩
    ∧ get_hmac_for_secret (fun _ => .parsed goodDoc) "SECRET(t)" "v" "/s" "dev"
      = .ok ⟨some (.str "sighash"), none⟩ :=
  ⟨(C8_get_hmac_amended (fun _ => .missing) "SECRET(t)" "v" "/s" "dev").1 rfl,
   (C8_get_hmac_amended (fun _ => .invalidJson) "SECRET(t)" "v" "/s" "dev").2.1 rfl,
   (C8_get_hmac_amended (fun _ => .parsed (.obj [])) "SECRET(t)" "v" "/s" "dev").2.2.1
     (.obj []) rfl rfl,
   (C8_get_hmac_amended (fun _ => .parsed goodDoc) "SECRET(t)" "v" "/s" "dev").2.2.2.1
     goodDoc (.str "sighash") rfl rfl⟩

/-- Claim C6 witness: the success characterization applied to a concrete
work dir. -/
theorem C6_witness : validate_work_dir "/p:/q" = .ok () :=
  (C6_validate_work_dir.1 "/p:/q").mpr (by decide)
